import Mathlib

/-!
Shallow embedding of the JiraReassign tool (jtool): the Jira/Confluence
client operations and the remap orchestration logic from
src/jtool/client/base.py, src/jtool/client/jira.py,
src/jtool/client/confluence.py and src/jtool/cli/remap.py.

Network responses are passed in explicitly (as page values, response
lists, or per-request outcome functions); raised exceptions are modelled
with Except / explicit result types.
-/

namespace JTool

/-- User model from client/base.py: accountId, optional emailAddress,
optional displayName. -/
structure User where
  accountId : String
  emailAddress : Option String
  displayName : Option String
deriving DecidableEq

/-- API errors: APIHTTPError carries a status code and response text
(other diagnostic fields are irrelevant to the embedded logic);
plain APIError carries a message. -/
inductive ApiErr where
  | httpError (statusCode : Nat) (responseText : Option String)
  | generic (msg : String)
deriving DecidableEq

/- ------------------------------------------------------------------
   client/jira.py : resolve_user
   ------------------------------------------------------------------ -/

/-- The match test from the resolve_user loop:
u.accountId == identifier or u.emailAddress == identifier
(emailAddress is Optional, None never equals a string). -/
def matchesIdentifier (identifier : String) (u : User) : Bool :=
  u.accountId == identifier || u.emailAddress == some identifier

/-- resolve_user (client/jira.py): given the decoded search response
(a list of users), return the single user when exactly one match;
with more than one, return the first whose accountId or emailAddress
equals the identifier; otherwise raise APIError. -/
def resolve_user (identifier : String) (resp : List User) : Except ApiErr User :=
  if h : resp.length = 1 then
    .ok (resp.get ⟨0, by omega⟩)
  else if 1 < resp.length then
    match resp.find? (matchesIdentifier identifier) with
    | some u => .ok u
    | none => .error (.generic ("No exact match found for " ++ identifier))
  else
    .error (.generic ("No exact match found for " ++ identifier))

/- ------------------------------------------------------------------
   client/jira.py : Task model and get_task_status
   ------------------------------------------------------------------ -/

/-- TaskStatus enum from client/jira.py. -/
inductive TaskStatus where
  | ENQUEUED
  | RUNNING
  | COMPLETE
  | FAILED
  | CANCEL_REQUESTED
  | CANCELLED
  | DEAD
deriving DecidableEq

/-- Task.is_finished (client/jira.py): status is one of the five
terminal states. -/
def TaskStatus.isFinished : TaskStatus → Bool
  | .COMPLETE => true
  | .FAILED => true
  | .CANCEL_REQUESTED => true
  | .CANCELLED => true
  | .DEAD => true
  | _ => false

/-- Task model from client/jira.py. processedAccessibleIssues is a
list[Any]; its elements are opaque, modelled as Nat. -/
structure Task where
  taskId : String
  status : TaskStatus
  progressPercent : Int
  totalIssueCount : Int
  processedAccessibleIssues : List Nat
deriving DecidableEq

/-- The in-place update performed by get_task_status (client/jira.py)
when called with an existing Task: status, progressPercent,
totalIssueCount and processedAccessibleIssues are copied from the
freshly fetched task; taskId is not touched. -/
def get_task_status_update (curr fetched : Task) : Task :=
  { curr with
    status := fetched.status
    progressPercent := fetched.progressPercent
    totalIssueCount := fetched.totalIssueCount
    processedAccessibleIssues := fetched.processedAccessibleIssues }

/- ------------------------------------------------------------------
   client/jira.py : bulk_update_user_field
   ------------------------------------------------------------------ -/

/-- The chunking of bulk_update_user_field (client/jira.py):
issue_keys[i : i + 50] for i in range(0, len(issue_keys), 50). -/
def chunkList (l : List String) : List (List String) :=
  match l with
  | [] => []
  | a :: as => ((a :: as).take 50) :: chunkList ((a :: as).drop 50)
termination_by l.length
decreasing_by simp [List.length_drop]; omega

/-- Outcome of one batch submission in bulk_update_user_field:
an exception (APIError or unexpected), a decoded dict (optionally
carrying a taskId), or a decoded non-dict body. -/
inductive SubmitResp where
  | errResp
  | okDict (taskId : Option String)
  | okOther
deriving DecidableEq

/-- bulk_update_user_field (client/jira.py): split issue_keys into
chunks of 50, submit each (respond gives the per-chunk outcome, indexed
by batch position), then collect resp.get("taskId", "") from the
responses that are dicts; exceptions are logged and skipped. -/
def bulk_update_user_field (issue_keys : List String)
    (respond : Nat → List String → SubmitResp) : List String :=
  let chunks := chunkList issue_keys
  let responses := chunks.enum.map (fun p => respond p.1 p.2)
  responses.foldl
    (fun results resp =>
      match resp with
      | .okDict tid => results ++ [tid.getD ""]
      | _ => results)
    []

/- ------------------------------------------------------------------
   client/jira.py : get_filters_for_user pagination
   client/confluence.py : list_spaces pagination
   ------------------------------------------------------------------ -/

/-- One decoded page of the filter search response: the "values" list
(filter ids) and the "nextPage" pointer ("" models an absent or empty
pointer, both falsy in the source). -/
structure FilterPage where
  values : List String
  nextPage : String
deriving DecidableEq

/-- The pagination loop of get_filters_for_user (client/jira.py):
extend with the page values, then follow nextPage while truthy.
server maps a nextPage URL to the page it returns; fuel bounds the
number of follow-up requests (none = the loop did not finish within
fuel). Returns the collected ids and the follow-up request count. -/
def getFiltersLoop (server : String → FilterPage) (fuel : Nat)
    (page : FilterPage) : Option (List String × Nat) :=
  if page.nextPage = "" then
    some (page.values, 0)
  else
    match fuel with
    | 0 => none
    | f + 1 =>
      match getFiltersLoop server f (server page.nextPage) with
      | none => none
      | some (rest, n) => some (page.values ++ rest, n + 1)

/-- One decoded page of the Confluence spaces listing: the "results"
list (raw space objects, opaque) and the next link from "_links"
("" models absent). -/
structure SpacePage where
  results : List Nat
  next : String
deriving DecidableEq

/-- The pagination loop of list_spaces (client/confluence.py):
extend results, read the next link, break when falsy, otherwise fetch
the next page. Same fuel convention as getFiltersLoop. -/
def listSpacesLoop (server : String → SpacePage) (fuel : Nat)
    (page : SpacePage) : Option (List Nat × Nat) :=
  if page.next = "" then
    some (page.results, 0)
  else
    match fuel with
    | 0 => none
    | f + 1 =>
      match listSpacesLoop server f (server page.next) with
      | none => none
      | some (rest, n) => some (page.results ++ rest, n + 1)

/- ------------------------------------------------------------------
   client/confluence.py : space permissions
   ------------------------------------------------------------------ -/

/-- SpacePermSubjectV1 from client/confluence.py. -/
structure SpacePermSubjectV1 where
  type : String
  identifier : String
deriving DecidableEq

/-- SpacePermOperationV1 from client/confluence.py. -/
structure SpacePermOperationV1 where
  key : String
  target : String
deriving DecidableEq

/-- SpacePermissionV1 from client/confluence.py. -/
structure SpacePermissionV1 where
  id : Option String
  subject : SpacePermSubjectV1
  operation : SpacePermOperationV1
deriving DecidableEq

/-- Space from client/confluence.py. -/
structure Space where
  id : String
  key : String
  name : String
  type : String
  permissions : Option (List SpacePermissionV1)
deriving DecidableEq

/-- Python substring containment (needle in hay) on character lists. -/
def charsContain (needle : List Char) : List Char → Bool
  | [] => needle.isEmpty
  | c :: cs => decide (needle <+: (c :: cs)) || charsContain needle cs

/-- Python substring containment on strings: needle in hay. -/
def strContainsSub (needle hay : String) : Bool :=
  charsContain needle.data hay.data

/-- The conflict test in add_space_permission (client/confluence.py):
e.status_code == 409 or (e.status_code == 400 and
"Permission already exists." in (e.response_text or "")). -/
def conflictAlreadyExists (statusCode : Nat) (responseText : Option String) : Bool :=
  statusCode == 409 ||
    (statusCode == 400 &&
      strContainsSub "Permission already exists." (responseText.getD ""))

/-- The exception classes flowing through the client stack:
httpx.HTTPStatusError is what request (client/base.py) raises via
raise_for_status for a non-2xx response; APIHTTPError is the converted
form built by the handle_api_errors wrapper; ConfluenceAPIError is the
mapping confluence_errors may apply. -/
inductive PyExc where
  | httpStatusError (statusCode : Nat) (responseText : Option String)
  | apiHttpError (statusCode : Nat) (responseText : Option String)
  | confluenceApiError (msg : String)
deriving DecidableEq

/-- Result of add_space_permission: the request succeeded, the
conflict case was downgraded to a logged warning and a normal return,
or an exception left the call. -/
inductive AddPermResult where
  | added
  | warnedAlreadyExists
  | raised (e : PyExc)
deriving DecidableEq

/-- The undecorated body of add_space_permission
(client/confluence.py): perform the POST; the try/except catches only
APIHTTPError, in which case the conflict test decides between a
logged warning (normal return) and a re-raise; any other exception —
in particular the httpx.HTTPStatusError that request actually raises —
propagates uncaught. outcome none models a 2xx response. -/
def add_space_permission_body (outcome : Option PyExc) : AddPermResult :=
  match outcome with
  | none => .added
  | some (.apiHttpError s t) =>
    if conflictAlreadyExists s t then .warnedAlreadyExists
    else .raised (.apiHttpError s t)
  | some e => .raised e

/-- The handle_api_errors wrapper (client/base.py): an
httpx.HTTPStatusError escaping the wrapped call is converted to an
APIHTTPError with the response status and text; every escaping
exception is then passed through the extra handler (confluence_errors)
and re-raised. -/
def handle_api_errors_wrap (extraHandler : PyExc → PyExc) :
    AddPermResult → AddPermResult
  | .raised (.httpStatusError s t) => .raised (extraHandler (.apiHttpError s t))
  | .raised e => .raised (extraHandler e)
  | r => r

/-- add_space_permission as deployed (client/confluence.py): the
handle_confluence_errors-decorated body, where a rejected POST
surfaces inside the body as the httpx.HTTPStatusError raised by
request in client/base.py. httpOutcome some (status, text) models the
server rejecting the request. -/
def add_space_permission (extraHandler : PyExc → PyExc)
    (httpOutcome : Option (Nat × Option String)) : AddPermResult :=
  handle_api_errors_wrap extraHandler
    (add_space_permission_body
      (httpOutcome.map (fun e => PyExc.httpStatusError e.1 e.2)))

/- ------------------------------------------------------------------
   cli/remap.py : resolve_user_map (remap_callback.main)
   ------------------------------------------------------------------ -/

/-- One CSV row with old and new identifier columns. -/
structure Row where
  old : String
  new : String
deriving DecidableEq

/-- Python str.isspace characters relevant to str.strip (space, tab,
newline, carriage return, vertical tab, form feed). -/
def isSpaceChar (c : Char) : Bool :=
  " \t\n\r\x0b\x0c".data.contains c

/-- Drop leading whitespace from a character list. -/
def dropLeadingSpace : List Char → List Char
  | [] => []
  | c :: cs => if isSpaceChar c then dropLeadingSpace cs else c :: cs

/-- Python str.strip(): remove leading and trailing whitespace. -/
def pyStrip (s : String) : String :=
  ⟨(dropLeadingSpace (dropLeadingSpace s.data).reverse).reverse⟩

/-- resolve_user_map (cli/remap.py): resolve row["old"].strip() and
row["new"].strip(); log one warning per side that raised APIError;
return the pair when both resolved, otherwise None. Returns the
optional pair and the number of warnings emitted for this row. -/
def resolve_user_map (resolve : String → Except ApiErr User) (row : Row) :
    Option (User × User) × Nat :=
  let old_user := resolve (pyStrip row.old)
  let new_user := resolve (pyStrip row.new)
  let warnings :=
    (match old_user with | .error _ => 1 | .ok _ => 0) +
    (match new_user with | .error _ => 1 | .ok _ => 0)
  match old_user, new_user with
  | .ok ou, .ok nu => (some (ou, nu), warnings)
  | _, _ => (none, warnings)

/-- The user-map construction in remap_callback.main (cli/remap.py):
gather resolve_user_map over all rows in order, then keep the
non-None pairs. Returns the mapping list and the total warning
count. -/
def buildUserMaps (resolve : String → Except ApiErr User) (rows : List Row) :
    List (User × User) × Nat :=
  let user_solved := rows.map (resolve_user_map resolve)
  (user_solved.filterMap Prod.fst, (user_solved.map Prod.snd).sum)

/- ------------------------------------------------------------------
   cli/remap.py : reassign_perm (remap_spaces.main)
   ------------------------------------------------------------------ -/

/-- Outbound mutation requests issued by the remap commands. -/
inductive Mutation where
  | setFilterOwner (filterId : String) (accountId : String)
  | bulkUpdate (fieldName : String) (chunk : List String) (accountId : String)
  | addPerm (spaceKey : String) (perm : SpacePermissionV1)
  | removePerm (spaceKey : String) (permId : Option String)
  | renameSpace (spaceKey : String) (newName : String)
deriving DecidableEq

/-- The permission sent by reassign_perm (cli/remap.py): a copy of the
matched permission with id cleared and the subject identifier set to
the new user's accountId. -/
def newPermFor (perm : SpacePermissionV1) (new : User) : SpacePermissionV1 :=
  { perm with
    id := none
    subject := { perm.subject with identifier := new.accountId } }

/-- reassign_perm (cli/remap.py): call add_space_permission for the
new user's copy of the permission; when it returns normally, increment
changed and call remove_space_permission for the old permission; an
APIError from either call is caught and logged as a warning.
addRes is the result of the add call; removeOutcome the outcome of the
remove call when reached. Returns the ordered request trace, the
changed increment and whether a failure warning was logged. -/
def reassign_perm (space : Space) (perm : SpacePermissionV1) (new : User)
    (addRes : AddPermResult) (removeOutcome : Except ApiErr Unit) :
    List Mutation × Nat × Bool :=
  let addReq := Mutation.addPerm space.key (newPermFor perm new)
  match addRes with
  | .raised _ => ([addReq], 0, true)
  | _ =>
    match removeOutcome with
    | .ok _ => ([addReq, .removePerm space.key perm.id], 1, false)
    | .error _ => ([addReq, .removePerm space.key perm.id], 1, true)

/- ------------------------------------------------------------------
   cli/remap.py : track_task and the per-pair tracking loop
   (remap_issues.main, lines 300-345)
   ------------------------------------------------------------------ -/

/-- In-place update of a task list entry by taskId (the Python lists
tasks and pending_tasks alias the same Task objects, so an in-place
field update is visible in both; here we rewrite the entry with the
matching id). -/
def updateById (l : List Task) (t : Task) : List Task :=
  l.map (fun x => if x.taskId = t.taskId then t else x)

/-- pending_tasks.remove(task): drop the first element with the given
taskId (Task equality is field equality; taskIds are distinct, so the
first equal element is the entry with this id). -/
def removeFirstById : List Task → String → List Task
  | [], _ => []
  | x :: xs, tid => if x.taskId = tid then xs else x :: removeFirstById xs tid

/-- The initial round of track_task calls in remap_issues.main: each
task id is polled (fetch gives the freshly fetched Task for an id);
a finished task adds len(processedAccessibleIssues) to user_changed
and has its progressPercent set to 100; pending_tasks is the empty
list during this round, so no removal happens. Returns the gathered
tasks in order and the accumulated user_changed. -/
def initialTrackRound (fetch : String → Task) : List String → Nat → List Task × Nat
  | [], uc => ([], uc)
  | tid :: rest, uc =>
    let t := fetch tid
    if t.status.isFinished then
      let t' := { t with progressPercent := 100 }
      let r := initialTrackRound fetch rest (uc + t.processedAccessibleIssues.length)
      (t' :: r.1, r.2)
    else
      let r := initialTrackRound fetch rest uc
      (t :: r.1, r.2)

/-- One while-loop round in remap_issues.main: track_task is called for
every task in the pending snapshot; each call re-fetches the task,
updates it in place, and when it is observed finished adds
len(processedAccessibleIssues) to user_changed, sets progressPercent
to 100 and removes it from pending_tasks. Arguments: the snapshot
being iterated, the tasks list, the pending list, user_changed. -/
def processRound (fetch : String → Task) :
    List Task → List Task → List Task → Nat → List Task × List Task × Nat
  | [], tasks, pending, uc => (tasks, pending, uc)
  | p :: rest, tasks, pending, uc =>
    let fetched := fetch p.taskId
    let upd0 := get_task_status_update p fetched
    if upd0.status.isFinished then
      let upd := { upd0 with progressPercent := 100 }
      processRound fetch rest (updateById tasks upd)
        (removeFirstById (updateById pending upd) upd.taskId)
        (uc + upd0.processedAccessibleIssues.length)
    else
      processRound fetch rest (updateById tasks upd0) (updateById pending upd0) uc

/-- The while pending_tasks loop of remap_issues.main: repeat rounds
until pending is empty. fetch takes the round number and a task id;
fuel bounds the number of rounds (none = the loop did not finish
within fuel rounds). -/
def trackWhile (fetch : Nat → String → Task) :
    Nat → Nat → List Task → List Task → Nat → Option (List Task × Nat)
  | 0, _, tasks, pending, uc =>
    if pending.isEmpty then some (tasks, uc) else none
  | fuel + 1, round, tasks, pending, uc =>
    if pending.isEmpty then some (tasks, uc)
    else
      let step := processRound (fetch round) pending tasks pending uc
      trackWhile fetch fuel (round + 1) step.1 step.2.1 step.2.2

/-- The per-pair tracking section of remap_issues.main: user_changed is
reset to 0 and pending_tasks to []; the initial round polls every task
id; then pending_tasks is set to tasks.copy() (all gathered tasks,
including those already finished) and while-rounds run until pending
is empty. Returns the final tasks and the pair's user_changed. -/
def issueTrackLoop (fetch : Nat → String → Task) (taskIds : List String)
    (fuel : Nat) : Option (List Task × Nat) :=
  let init := initialTrackRound (fetch 0) taskIds 0
  trackWhile fetch fuel 1 init.1 init.1 init.2

/- ------------------------------------------------------------------
   cli/remap.py : the three remap commands (mutation phase)
   ------------------------------------------------------------------ -/

/-- Result of one remap command run: the ordered trace of mutation
requests issued, the total matched count, the changed count, and
whether an uncaught exception aborted the loop. -/
structure RunResult where
  trace : List Mutation
  total : Nat
  changed : Nat
  aborted : Bool
deriving DecidableEq

/-- Whether a mutation outcome is a success. -/
def mutOk (outcome : Mutation → Except ApiErr Unit) (m : Mutation) : Bool :=
  match outcome m with
  | .ok _ => true
  | .error _ => false

/-- The mutation phase of remap_filters.main (cli/remap.py): for each
(old, new, filters) entry, total += len(filters); when dry_run or no
filters, skip; otherwise issue set_filter_owner for every filter
concurrently (all requests of the pair are issued), count successes
into changed, and abort after this pair when any request failed (the
exception propagates out of the gather). -/
def remapFiltersRun (outcome : Mutation → Except ApiErr Unit) (dry_run : Bool) :
    List (User × User × List String) → RunResult
  | [] => ⟨[], 0, 0, false⟩
  | (_, new, filters) :: rest =>
    let user_total := filters.length
    if dry_run || user_total == 0 then
      let r := remapFiltersRun outcome dry_run rest
      ⟨r.trace, user_total + r.total, r.changed, r.aborted⟩
    else
      let reqs := filters.map (fun fid => Mutation.setFilterOwner fid new.accountId)
      let succ := (reqs.filter (mutOk outcome)).length
      if reqs.all (mutOk outcome) then
        let r := remapFiltersRun outcome dry_run rest
        ⟨reqs ++ r.trace, user_total + r.total, succ + r.changed, r.aborted⟩
      else
        ⟨reqs, user_total, succ, true⟩

/-- The mutation phase of remap_issues.main (cli/remap.py): for each
(old, new, assigned_keys, reported_keys) entry, total += combined
length; when dry_run or no keys, skip; otherwise submit the bulk
update batches for assignee and reporter (every chunk submission is
issued; respond gives each chunk's outcome per field name), track the
returned task ids to completion, and add the pair's user_changed to
changed. Fuel exhaustion of the tracking loop models the unbounded
polling loop not terminating, reported as aborted. -/
def remapIssuesRun (respond : String → Nat → List String → SubmitResp)
    (fetch : Nat → String → Task) (fuel : Nat) (dry_run : Bool) :
    List (User × User × List String × List String) → RunResult
  | [] => ⟨[], 0, 0, false⟩
  | (_, new, assigned_keys, reported_keys) :: rest =>
    let user_total := assigned_keys.length + reported_keys.length
    if dry_run || user_total == 0 then
      let r := remapIssuesRun respond fetch fuel dry_run rest
      ⟨r.trace, user_total + r.total, r.changed, r.aborted⟩
    else
      let reqs :=
        (chunkList assigned_keys).map
          (fun c => Mutation.bulkUpdate "assignee" c new.accountId) ++
        (chunkList reported_keys).map
          (fun c => Mutation.bulkUpdate "reporter" c new.accountId)
      let task_ids :=
        bulk_update_user_field assigned_keys (respond "assignee") ++
        bulk_update_user_field reported_keys (respond "reporter")
      match issueTrackLoop fetch task_ids fuel with
      | none => ⟨reqs, user_total, 0, true⟩
      | some tr =>
        let r := remapIssuesRun respond fetch fuel dry_run rest
        ⟨reqs ++ r.trace, user_total + r.total, tr.2 + r.changed, r.aborted⟩

/-- The per-space work of reassign_space (cli/remap.py): reassign_perm
for every filtered permission of the space (add, then remove on
success; failures are caught and logged), then rename the space when
its type is "personal". Returns the trace and the changed
increment; rename failures abort (no handler in reassign_space). -/
def reassignSpaceRun (addRes : SpacePermissionV1 → AddPermResult)
    (removeOutcome : SpacePermissionV1 → Except ApiErr Unit)
    (renameOutcome : Space → Except ApiErr Unit)
    (space : Space) (new : User) : List Mutation × Nat × Bool :=
  let perms := space.permissions.getD []
  let permRes := perms.map (fun p => reassign_perm space p new (addRes p) (removeOutcome p))
  let trace := (permRes.map (fun r => r.1)).flatten
  let changed := (permRes.map (fun r => r.2.1)).sum
  if space.type = "personal" then
    let renameReq := Mutation.renameSpace space.key
      ((new.displayName.getD "") ++ "s Old Personal Space")
    match renameOutcome space with
    | .ok _ => (trace ++ [renameReq], changed, false)
    | .error _ => (trace ++ [renameReq], changed, true)
  else
    (trace, changed, false)

/-- The mutation phase of remap_spaces.main (cli/remap.py): for each
(old, new, spaces) entry, total += number of matched permissions; when
dry_run or none, skip; otherwise run reassign_space for every space of
the pair and accumulate the changed count; a rename failure aborts
after the pair. -/
def remapSpacesRun (addRes : SpacePermissionV1 → AddPermResult)
    (removeOutcome : SpacePermissionV1 → Except ApiErr Unit)
    (renameOutcome : Space → Except ApiErr Unit) (dry_run : Bool) :
    List (User × User × List Space) → RunResult
  | [] => ⟨[], 0, 0, false⟩
  | (_, new, spaces) :: rest =>
    let user_total := (spaces.map (fun s => (s.permissions.getD []).length)).sum
    if dry_run || user_total == 0 then
      let r := remapSpacesRun addRes removeOutcome renameOutcome dry_run rest
      ⟨r.trace, user_total + r.total, r.changed, r.aborted⟩
    else
      let spaceRes := spaces.map (fun s => reassignSpaceRun addRes removeOutcome renameOutcome s new)
      let trace := (spaceRes.map (fun r => r.1)).flatten
      let changed := (spaceRes.map (fun r => r.2.1)).sum
      if spaceRes.any (fun r => r.2.2) then
        ⟨trace, user_total, changed, true⟩
      else
        let r := remapSpacesRun addRes removeOutcome renameOutcome dry_run rest
        ⟨trace ++ r.trace, user_total + r.total, changed + r.changed, r.aborted⟩

/-- A remap command main with the discovery outcome made explicit:
when discovery raises, main aborts before the mutation loop and issues
no mutation; otherwise the mutation phase runs on the discovered
entries. -/
def withDiscovery {α : Type} (run : α → RunResult) :
    Except ApiErr α → RunResult
  | .error _ => ⟨[], 0, 0, true⟩
  | .ok x => run x

/- ------------------------------------------------------------------
   Helper lemmas
   ------------------------------------------------------------------ -/

theorem chunkList_nil : chunkList [] = [] := by
  simp [chunkList]

theorem chunkList_cons (l : List String) (h : l ≠ []) :
    chunkList l = l.take 50 :: chunkList (l.drop 50) := by
  match l with
  | [] => exact absurd rfl h
  | a :: as => rw [chunkList]

theorem chunkList_eq_nil_iff (l : List String) : chunkList l = [] ↔ l = [] := by
  cases l with
  | nil => simp [chunkList]
  | cons a as => rw [chunkList]; simp

theorem chunkList_flatten (l : List String) : (chunkList l).flatten = l := by
  induction l using chunkList.induct with
  | case1 => simp [chunkList]
  | case2 a as ih =>
    rw [chunkList, List.flatten_cons, ih]
    exact List.take_append_drop 50 (a :: as)

theorem chunkList_dropLast_sizes (l : List String) :
    ∀ c ∈ (chunkList l).dropLast, c.length = 50 := by
  induction l using chunkList.induct with
  | case1 => simp [chunkList]
  | case2 a as ih =>
    rw [chunkList]
    rcases hd : chunkList ((a :: as).drop 50) with _ | ⟨d, ds⟩
    · simp
    · have hdrop : (a :: as).drop 50 ≠ [] := by
        intro hnil
        rw [hnil, chunkList_nil] at hd
        exact List.noConfusion hd
      have hlen : 50 ≤ (a :: as).length := by
        by_contra hlt
        exact hdrop (List.drop_eq_nil_iff.mpr (by omega))
      intro c hc
      rw [List.dropLast_cons_of_ne_nil (List.cons_ne_nil d ds)] at hc
      rcases List.mem_cons.mp hc with hc | hc
      · subst hc
        simp only [List.length_take, List.length_cons]
        simp only [List.length_cons] at hlen
        omega
      · exact ih c (by rw [hd]; exact hc)

/- ------------------------------------------------------------------
   Claim theorems
   ------------------------------------------------------------------ -/

/-- C9: polling a bulk task via get_task_status applied to an existing
Task leaves taskId unchanged and replaces exactly status,
progressPercent, totalIssueCount and processedAccessibleIssues with
the freshly fetched values. -/
theorem get_task_status_frame (curr fetched : Task) :
    (get_task_status_update curr fetched).taskId = curr.taskId ∧
    (get_task_status_update curr fetched).status = fetched.status ∧
    (get_task_status_update curr fetched).progressPercent = fetched.progressPercent ∧
    (get_task_status_update curr fetched).totalIssueCount = fetched.totalIssueCount ∧
    (get_task_status_update curr fetched).processedAccessibleIssues =
      fetched.processedAccessibleIssues :=
  ⟨rfl, rfl, rfl, rfl, rfl⟩

/-- C10: bulk_update_user_field on an empty issue-key list produces
zero batches and returns the empty task-id list, for every per-chunk
response. -/
theorem bulk_update_empty_keys (respond : Nat → List String → SubmitResp) :
    chunkList [] = [] ∧ bulk_update_user_field [] respond = [] :=
  ⟨chunkList_nil, by simp [bulk_update_user_field, chunkList_nil]⟩

/-- Whether a batch response is a decoded dict (an accepted chunk). -/
def isOkDict : SubmitResp → Bool
  | .okDict _ => true
  | _ => false

theorem collectTaskIds_length (rs : List SubmitResp) (acc : List String) :
    (rs.foldl
      (fun results resp =>
        match resp with
        | .okDict tid => results ++ [tid.getD ""]
        | _ => results)
      acc).length = acc.length + (rs.filter isOkDict).length := by
  induction rs generalizing acc with
  | nil => simp
  | cons r rs ih =>
    cases r <;> simp [ih, List.filter_cons, isOkDict] <;> try omega

theorem chunkList_of_length_120 (l : List String) (h : l.length = 120) :
    chunkList l = [l.take 50, (l.drop 50).take 50, (l.drop 50).drop 50] := by
  have h1 : l ≠ [] := by
    intro hn; rw [hn] at h; simp at h
  have h2 : l.drop 50 ≠ [] := by
    intro hn; have := List.drop_eq_nil_iff.mp hn; omega
  have h3 : (l.drop 50).drop 50 ≠ [] := by
    intro hn
    have := List.drop_eq_nil_iff.mp hn
    simp only [List.length_drop] at this
    omega
  have h4 : ((l.drop 50).drop 50).length = 20 := by
    simp only [List.length_drop]; omega
  have ht : ((l.drop 50).drop 50).take 50 = (l.drop 50).drop 50 :=
    List.take_of_length_le (by omega)
  have hz : chunkList (((l.drop 50).drop 50).drop 50) = [] :=
    (chunkList_eq_nil_iff _).mpr (List.drop_eq_nil_iff.mpr (by omega))
  rw [chunkList_cons l h1, chunkList_cons _ h2, chunkList_cons _ h3, ht, hz]

/-- C3: bulk_update_user_field splits every key list into consecutive
chunks of 50 with the last chunk holding the remainder (the chunks
concatenate back to the input and every chunk before the last has
length exactly 50); 120 keys give exactly the batches of sizes
50, 50, 20; and when the second batch submission fails while the
others are accepted with task ids, the returned task-id list is
exactly the two ids of batches 1 and 3. -/
theorem bulk_update_chunking_and_partial_failure (keys : List String)
    (respond : Nat → List String → SubmitResp) (t0 t2 : String)
    (h120 : keys.length = 120)
    (h0 : respond 0 (keys.take 50) = .okDict (some t0))
    (h1 : respond 1 ((keys.drop 50).take 50) = .errResp)
    (h2 : respond 2 ((keys.drop 50).drop 50) = .okDict (some t2)) :
    (chunkList keys).map List.length = [50, 50, 20] ∧
    bulk_update_user_field keys respond = [t0, t2] ∧
    (∀ l : List String, (chunkList l).flatten = l) ∧
    (∀ l : List String, ∀ c ∈ (chunkList l).dropLast, c.length = 50) ∧
    (∀ (l : List String) (rsp : Nat → List String → SubmitResp),
      (bulk_update_user_field l rsp).length =
        (((chunkList l).enum.map (fun p => rsp p.1 p.2)).filter isOkDict).length) := by
  have hch := chunkList_of_length_120 keys h120
  refine ⟨?_, ?_, chunkList_flatten, chunkList_dropLast_sizes, ?_⟩
  · rw [hch]
    simp only [List.map_cons, List.map_nil, List.length_take, List.length_drop, h120]
    norm_num
  · simp only [bulk_update_user_field, hch, List.enum, List.enumFrom, List.map_cons,
      List.map_nil, h0, h1, h2, List.foldl_cons, List.foldl_nil, Option.getD_some,
      List.nil_append]
    rfl
  · intro l rsp
    simp only [bulk_update_user_field]
    rw [collectTaskIds_length]
    simp

/-- Witness for C3 at a concrete 120-key list with the second batch
failing. -/
theorem bulk_update_chunking_and_partial_failure_witness :
    bulk_update_user_field (List.replicate 120 "K")
      (fun i _ => if i = 0 then .okDict (some "task-0")
                  else if i = 2 then .okDict (some "task-2")
                  else .errResp) = ["task-0", "task-2"] := by
  have h := bulk_update_chunking_and_partial_failure (List.replicate 120 "K")
    (fun i _ => if i = 0 then .okDict (some "task-0")
                else if i = 2 then .okDict (some "task-2")
                else .errResp)
    "task-0" "task-2" (by simp) (by simp) (by simp) (by simp)
  exact h.2.1

/-- C4: resolve_user accepts a single-match response unconditionally;
with multiple matches it returns a user whose accountId or
emailAddress equals the identifier when one exists; and it fails
exactly when there are zero matches, or multiple matches none of
which has accountId or emailAddress equal to the identifier. -/
theorem resolve_user_cases (identifier : String) (resp : List User) :
    (∀ u, resp = [u] → resolve_user identifier resp = .ok u) ∧
    (1 < resp.length →
      (∃ u ∈ resp, matchesIdentifier identifier u = true) →
      ∃ v ∈ resp, matchesIdentifier identifier v = true ∧
        resolve_user identifier resp = .ok v) ∧
    ((∃ e, resolve_user identifier resp = .error e) ↔
      (resp = [] ∨
        (1 < resp.length ∧ ∀ u ∈ resp, matchesIdentifier identifier u = false))) := by
  refine ⟨?_, ?_, ?_⟩
  · rintro u rfl
    simp [resolve_user]
  · intro hlen hex
    have hne : resp.length ≠ 1 := by omega
    rcases hfind : resp.find? (matchesIdentifier identifier) with _ | v
    · rcases hex with ⟨u, hu, hm⟩
      have := List.find?_eq_none.mp hfind u hu
      simp [hm] at this
    · refine ⟨v, List.mem_of_find?_eq_some hfind, List.find?_some hfind, ?_⟩
      simp [resolve_user, hne, hlen, hfind]
  · constructor
    · rintro ⟨e, he⟩
      by_cases h1 : resp.length = 1
      · simp [resolve_user, h1] at he
    -- impossible: the single-match branch returns .ok
      · by_cases h2 : 1 < resp.length
        · rcases hfind : resp.find? (matchesIdentifier identifier) with _ | v
          · right
            refine ⟨h2, fun u hu => ?_⟩
            have := List.find?_eq_none.mp hfind u hu
            simpa using this
          · simp [resolve_user, h1, h2, hfind] at he
        · left
          have : resp.length = 0 := by omega
          exact List.length_eq_zero.mp this
    · intro h
      rcases h with h | ⟨h2, hall⟩
      · subst h
        exact ⟨_, rfl⟩
      · have h1 : resp.length ≠ 1 := by omega
        have hfind : resp.find? (matchesIdentifier identifier) = none :=
          List.find?_eq_none.mpr (fun u hu => by simp [hall u hu])
        refine ⟨ApiErr.generic ("No exact match found for " ++ identifier), ?_⟩
        simp [resolve_user, h1, h2, hfind]

/-- A concrete user record for the resolve_user witness. -/
def c4UserA : User := ⟨"acc-1", some "a@x.com", some "Alice"⟩

/-- A second concrete user record for the resolve_user witness. -/
def c4UserB : User := ⟨"acc-2", some "b@x.com", some "Bob"⟩

/-- Witness for C4: a single-match response is accepted, and among two
matches the one whose accountId equals the identifier is returned. -/
theorem resolve_user_cases_witness :
    resolve_user "a@x.com" [c4UserA] = .ok c4UserA ∧
    resolve_user "acc-2" [c4UserA, c4UserB] = .ok c4UserB := by
  refine ⟨(resolve_user_cases "a@x.com" [c4UserA]).1 c4UserA rfl, ?_⟩
  obtain ⟨v, hv, hm, he⟩ := (resolve_user_cases "acc-2" [c4UserA, c4UserB]).2.1
    (by decide) ⟨c4UserB, by decide, by decide⟩
  rcases List.mem_cons.mp hv with h | h
  · subst h
    exact absurd hm (by decide)
  · rcases List.mem_cons.mp h with h | h
    · subst h
      exact he
    · cases h

theorem getFiltersLoop_last (server : String → FilterPage) (fuel : Nat)
    (page : FilterPage) (h : page.nextPage = "") :
    getFiltersLoop server fuel page = some (page.values, 0) := by
  rw [getFiltersLoop.eq_def, if_pos h]

theorem getFiltersLoop_step (server : String → FilterPage) (fuel : Nat)
    (page : FilterPage) (h : page.nextPage ≠ "") :
    getFiltersLoop server (fuel + 1) page =
      match getFiltersLoop server fuel (server page.nextPage) with
      | none => none
      | some (rest, n) => some (page.values ++ rest, n + 1) := by
  rw [getFiltersLoop.eq_def, if_neg h]

theorem listSpacesLoop_last (server : String → SpacePage) (fuel : Nat)
    (page : SpacePage) (h : page.next = "") :
    listSpacesLoop server fuel page = some (page.results, 0) := by
  rw [listSpacesLoop.eq_def, if_pos h]

theorem listSpacesLoop_step (server : String → SpacePage) (fuel : Nat)
    (page : SpacePage) (h : page.next ≠ "") :
    listSpacesLoop server (fuel + 1) page =
      match listSpacesLoop server fuel (server page.next) with
      | none => none
      | some (rest, n) => some (page.results ++ rest, n + 1) := by
  rw [listSpacesLoop.eq_def, if_neg h]

/-- C5: both paginated collectors (filters for a user, spaces) return
the empty sequence with no follow-up request when the first page is
empty with no next-page pointer; and for three pages where only the
first two carry next-page pointers, they return the concatenation of
the three pages (length a+b+c) with exactly two follow-up requests. -/
theorem pagination_collector_spec :
    (∀ (server : String → FilterPage) (fuel : Nat),
      getFiltersLoop server fuel ⟨[], ""⟩ = some ([], 0)) ∧
    (∀ (server : String → FilterPage) (fuel : Nat) (p1 p2 p3 : FilterPage),
      p1.nextPage ≠ "" → p2.nextPage ≠ "" → p3.nextPage = "" →
      server p1.nextPage = p2 → server p2.nextPage = p3 →
      getFiltersLoop server (fuel + 2) p1 =
        some (p1.values ++ (p2.values ++ p3.values), 2) ∧
      (p1.values ++ (p2.values ++ p3.values)).length =
        p1.values.length + p2.values.length + p3.values.length) ∧
    (∀ (server : String → SpacePage) (fuel : Nat),
      listSpacesLoop server fuel ⟨[], ""⟩ = some ([], 0)) ∧
    (∀ (server : String → SpacePage) (fuel : Nat) (p1 p2 p3 : SpacePage),
      p1.next ≠ "" → p2.next ≠ "" → p3.next = "" →
      server p1.next = p2 → server p2.next = p3 →
      listSpacesLoop server (fuel + 2) p1 =
        some (p1.results ++ (p2.results ++ p3.results), 2) ∧
      (p1.results ++ (p2.results ++ p3.results)).length =
        p1.results.length + p2.results.length + p3.results.length) := by
  refine ⟨?_, ?_, ?_, ?_⟩
  · intro server fuel
    exact getFiltersLoop_last server fuel ⟨[], ""⟩ rfl
  · intro server fuel p1 p2 p3 h1 h2 h3 hs1 hs2
    have e3 : getFiltersLoop server fuel p3 = some (p3.values, 0) :=
      getFiltersLoop_last server fuel p3 h3
    have e2 : getFiltersLoop server (fuel + 1) p2 =
        some (p2.values ++ p3.values, 1) := by
      rw [getFiltersLoop_step server fuel p2 h2, hs2, e3]
    refine ⟨?_, by simp [List.length_append]; omega⟩
    rw [show fuel + 2 = (fuel + 1) + 1 from rfl,
      getFiltersLoop_step server (fuel + 1) p1 h1, hs1, e2]
  · intro server fuel
    exact listSpacesLoop_last server fuel ⟨[], ""⟩ rfl
  · intro server fuel p1 p2 p3 h1 h2 h3 hs1 hs2
    have e3 : listSpacesLoop server fuel p3 = some (p3.results, 0) :=
      listSpacesLoop_last server fuel p3 h3
    have e2 : listSpacesLoop server (fuel + 1) p2 =
        some (p2.results ++ p3.results, 1) := by
      rw [listSpacesLoop_step server fuel p2 h2, hs2, e3]
    refine ⟨?_, by simp [List.length_append]; omega⟩
    rw [show fuel + 2 = (fuel + 1) + 1 from rfl,
      listSpacesLoop_step server (fuel + 1) p1 h1, hs1, e2]

/-- Three concrete filter pages for the C5 witness. -/
def c5FilterServer : String → FilterPage := fun u =>
  if u = "u1" then ⟨["f2"], "u2"⟩ else ⟨["f3"], ""⟩

/-- Three concrete space pages for the C5 witness. -/
def c5SpaceServer : String → SpacePage := fun u =>
  if u = "v1" then ⟨[21, 22], "v2"⟩ else ⟨[31], ""⟩

/-- Witness for C5: a concrete 3-page run of each collector yields the
concatenated items and exactly 2 follow-up requests. -/
theorem pagination_collector_spec_witness :
    getFiltersLoop c5FilterServer 2 ⟨["f1a", "f1b"], "u1"⟩ =
      some (["f1a", "f1b"] ++ (["f2"] ++ ["f3"]), 2) ∧
    listSpacesLoop c5SpaceServer 2 ⟨[11], "v1"⟩ =
      some ([11] ++ ([21, 22] ++ [31]), 2) := by
  constructor
  · exact (pagination_collector_spec.2.1 c5FilterServer 0 ⟨["f1a", "f1b"], "u1"⟩
      ⟨["f2"], "u2"⟩ ⟨["f3"], ""⟩ (by decide) (by decide) rfl (by decide) (by decide)).1
  · exact (pagination_collector_spec.2.2.2 c5SpaceServer 0 ⟨[11], "v1"⟩
      ⟨[21, 22], "v2"⟩ ⟨[31], ""⟩ (by decide) (by decide) rfl (by decide) (by decide)).1

/-- C1 fails on the code: a space-permission add rejected with 409 (or
400 with "Permission already exists." in the text) raises out of
add_space_permission instead of returning normally with a warning.
The inner except APIHTTPError never matches, because request in
client/base.py raises httpx.HTTPStatusError and the conversion to
APIHTTPError happens only in the outer handle_api_errors wrapper; the
caller reassign_perm then logs a failure and never issues the remove.
The dead inner handler would have produced the warning had the body
seen an APIHTTPError, which documents the intended behaviour. -/
theorem add_space_permission_conflict_raises :
    (∀ extraHandler,
      add_space_permission extraHandler (some (409, none)) =
        .raised (extraHandler (.apiHttpError 409 none))) ∧
    add_space_permission id (some (409, none)) ≠ .warnedAlreadyExists ∧
    add_space_permission id (some (400, some "Permission already exists.")) =
      .raised (.apiHttpError 400 (some "Permission already exists.")) ∧
    (∀ (space : Space) (perm : SpacePermissionV1) (new : User)
        (ro : Except ApiErr Unit),
      (reassign_perm space perm new
          (add_space_permission id (some (409, none))) ro).1 =
        [Mutation.addPerm space.key (newPermFor perm new)]) ∧
    add_space_permission_body (some (.apiHttpError 409 none)) =
      .warnedAlreadyExists := by
  refine ⟨fun extraHandler => rfl, by decide, rfl, fun space perm new ro => rfl, rfl⟩

/-- C8: reassign_perm issues the add request for the new user's
permission first; the remove of the old permission appears only after
a successful add (position 1, after the add at position 0), and is
never issued at all when the add raises. -/
theorem reassign_perm_add_before_remove (space : Space)
    (perm : SpacePermissionV1) (new : User) (addRes : AddPermResult)
    (ro : Except ApiErr Unit) :
    ((reassign_perm space perm new addRes ro).1.head? =
      some (Mutation.addPerm space.key (newPermFor perm new))) ∧
    (∀ e, addRes = .raised e →
      (reassign_perm space perm new addRes ro).1 =
        [Mutation.addPerm space.key (newPermFor perm new)]) ∧
    ((addRes = .added ∨ addRes = .warnedAlreadyExists) →
      (reassign_perm space perm new addRes ro).1 =
        [Mutation.addPerm space.key (newPermFor perm new),
         Mutation.removePerm space.key perm.id]) ∧
    (∀ i, (reassign_perm space perm new addRes ro).1[i]? =
        some (Mutation.removePerm space.key perm.id) →
      ∃ j : Nat, j < i ∧ (reassign_perm space perm new addRes ro).1[j]? =
        some (Mutation.addPerm space.key (newPermFor perm new))) := by
  have htr : (reassign_perm space perm new addRes ro).1 =
      [Mutation.addPerm space.key (newPermFor perm new)] ∨
      (reassign_perm space perm new addRes ro).1 =
        [Mutation.addPerm space.key (newPermFor perm new),
         Mutation.removePerm space.key perm.id] := by
    cases addRes <;> cases ro <;> simp [reassign_perm]
  refine ⟨?_, ?_, ?_, ?_⟩
  · rcases htr with htr | htr <;> rw [htr] <;> rfl
  · intro e he
    subst he
    cases ro <;> rfl
  · intro hok
    rcases hok with he | he <;> (subst he; cases ro <;> rfl)
  · intro i hi
    rcases htr with htr | htr <;> rw [htr] at hi ⊢
    · rcases i with _ | i
      · exact absurd (Option.some.inj hi) (by intro hmut; cases hmut)
      · rcases i with _ | i <;> simp at hi
    · rcases i with _ | i
      · exact absurd (Option.some.inj hi) (by intro hmut; cases hmut)
      · refine ⟨0, by omega, rfl⟩

/-- A concrete space for the C8 witness. -/
def c8Space : Space := ⟨"123", "TST", "Test Space", "global", none⟩

/-- A concrete matched permission for the C8 witness. -/
def c8Perm : SpacePermissionV1 :=
  ⟨some "p-1", ⟨"user", "acc-old"⟩, ⟨"read", "space"⟩⟩

/-- A concrete new user for the C8 witness. -/
def c8New : User := ⟨"acc-new", some "new@x.com", some "New"⟩

/-- Witness for C8: with a successful add the trace is add-then-remove;
with a raised add the trace is the add alone. -/
theorem reassign_perm_add_before_remove_witness :
    (reassign_perm c8Space c8Perm c8New .added (.ok ())).1 =
      [Mutation.addPerm "TST" (newPermFor c8Perm c8New),
       Mutation.removePerm "TST" (some "p-1")] ∧
    (reassign_perm c8Space c8Perm c8New
        (.raised (.apiHttpError 500 none)) (.ok ())).1 =
      [Mutation.addPerm "TST" (newPermFor c8Perm c8New)] := by
  constructor
  · exact (reassign_perm_add_before_remove c8Space c8Perm c8New .added
      (.ok ())).2.2.1 (Or.inl rfl)
  · exact (reassign_perm_add_before_remove c8Space c8Perm c8New
      (.raised (.apiHttpError 500 none)) (.ok ())).2.1 (.apiHttpError 500 none) rfl

/-- A resolver for the C6 counterexample: every identifier fails to
resolve. -/
def c6Resolve : String → Except ApiErr User :=
  fun identifier => .error (.generic ("No exact match found for " ++ identifier))

/-- The C6 counterexample row: both identifiers fail to resolve. -/
def c6Row : Row := ⟨"ghost-old", "ghost-new"⟩

/-- Counterexample to C6 as stated: a row where both identifiers fail
to resolve contributes zero entries but emits two warnings (one per
failing side), not exactly one. -/
theorem build_user_maps_one_warning_false :
    (buildUserMaps c6Resolve [c6Row]).1 = [] ∧
    (buildUserMaps c6Resolve [c6Row]).2 = 2 ∧ (2 : Nat) ≠ 1 := by
  refine ⟨rfl, rfl, by decide⟩

/-- C6 amended: the mapping list has exactly one entry per row whose
identifiers both resolve, in row order; a row with a failing
identifier contributes no entry and emits one warning per failing
identifier (so one warning when exactly one side fails, two when both
fail). -/
theorem build_user_maps_amended (resolve : String → Except ApiErr User)
    (rows : List Row) :
    (buildUserMaps resolve rows).1 =
      rows.filterMap (fun r =>
        match resolve (pyStrip r.old), resolve (pyStrip r.new) with
        | .ok ou, .ok nu => some (ou, nu)
        | _, _ => none) ∧
    (buildUserMaps resolve rows).2 =
      (rows.map (fun r =>
        (match resolve (pyStrip r.old) with | .error _ => 1 | .ok _ => 0) +
        (match resolve (pyStrip r.new) with | .error _ => 1 | .ok _ => 0))).sum ∧
    (∀ r : Row,
      ((resolve_user_map resolve r).1 = none ↔ (resolve_user_map resolve r).2 ≠ 0) ∧
      (resolve_user_map resolve r).2 ≤ 2) := by
  have hfst : ∀ r : Row, (resolve_user_map resolve r).1 =
      (match resolve (pyStrip r.old), resolve (pyStrip r.new) with
       | .ok ou, .ok nu => some (ou, nu)
       | _, _ => none) := by
    intro r
    unfold resolve_user_map
    rcases resolve (pyStrip r.old) with e | ou <;> rcases resolve (pyStrip r.new) with e2 | nu <;> rfl
  have hsnd : ∀ r : Row, (resolve_user_map resolve r).2 =
      (match resolve (pyStrip r.old) with | .error _ => 1 | .ok _ => 0) +
      (match resolve (pyStrip r.new) with | .error _ => 1 | .ok _ => 0) := by
    intro r
    unfold resolve_user_map
    rcases resolve (pyStrip r.old) with e | ou <;> rcases resolve (pyStrip r.new) with e2 | nu <;> rfl
  refine ⟨?_, ?_, ?_⟩
  · show (rows.map (resolve_user_map resolve)).filterMap Prod.fst = _
    rw [List.filterMap_map]
    exact List.filterMap_congr (fun r _ => hfst r)
  · show ((rows.map (resolve_user_map resolve)).map Prod.snd).sum = _
    rw [List.map_map]
    exact congrArg List.sum (List.map_congr_left (fun r _ => hsnd r))
  · intro r
    constructor
    · rw [hfst r, hsnd r]
      rcases resolve (pyStrip r.old) with e | ou <;> rcases resolve (pyStrip r.new) with e2 | nu <;> simp
    · rw [hsnd r]
      rcases resolve (pyStrip r.old) with e | ou <;> rcases resolve (pyStrip r.new) with e2 | nu <;> simp

/-- A resolver for the C6 witness: old-1 and new-1 resolve, ghost
identifiers fail. -/
def c6GoodResolve : String → Except ApiErr User := fun identifier =>
  if identifier = "old-1" then .ok ⟨"acc-o1", some "old-1", some "Old"⟩
  else if identifier = "new-1" then .ok ⟨"acc-n1", some "new-1", some "New"⟩
  else .error (.generic ("No exact match found for " ++ identifier))

/-- Witness for C6 amended: a resolving row yields exactly its entry in
order and no warning; a half-failing row yields no entry and one
warning. -/
theorem build_user_maps_amended_witness :
    (buildUserMaps c6GoodResolve [⟨"old-1", "new-1"⟩, ⟨"old-1", "ghost"⟩]).1 =
      [(⟨"acc-o1", some "old-1", some "Old"⟩, ⟨"acc-n1", some "new-1", some "New"⟩)] ∧
    (buildUserMaps c6GoodResolve [⟨"old-1", "new-1"⟩, ⟨"old-1", "ghost"⟩]).2 = 1 := by
  have h := build_user_maps_amended c6GoodResolve [⟨"old-1", "new-1"⟩, ⟨"old-1", "ghost"⟩]
  refine ⟨?_, ?_⟩
  · rw [h.1]
    rfl
  · rw [h.2.1]
    rfl

/-- The C2 failing input: one pair whose bulk update produced a single
task id T1, with a server that reports the task COMPLETE with 5
processedAccessibleIssues from the very first poll on. -/
def c2Fetch : Nat → String → Task := fun _ tid =>
  { taskId := tid, status := .COMPLETE, progressPercent := 100,
    totalIssueCount := 5, processedAccessibleIssues := [0, 1, 2, 3, 4] }

/-- The final task list on the C2 failing input. -/
def c2FinalTasks : List Task :=
  [{ taskId := "T1", status := .COMPLETE, progressPercent := 100,
     totalIssueCount := 5, processedAccessibleIssues := [0, 1, 2, 3, 4] }]

/-- C2 fails on the code: a task observed finished on the initial poll
adds len(processedAccessibleIssues) to user_changed there, is then put
back into pending_tasks by pending_tasks = tasks.copy(), and adds the
same amount again on the first while-round poll. The pair's final
changed count is 10, twice the 5 processedAccessibleIssues its single
completed task reports. -/
theorem issue_track_loop_double_counts :
    issueTrackLoop c2Fetch ["T1"] 2 = some (c2FinalTasks, 10) ∧
    (c2FinalTasks.map (fun t => t.processedAccessibleIssues.length)).sum = 5 ∧
    (10 : Nat) ≠ 5 := by
  refine ⟨rfl, rfl, by decide⟩

theorem remapFiltersRun_dry_trace (outcome : Mutation → Except ApiErr Unit)
    (maps : List (User × User × List String)) :
    (remapFiltersRun outcome true maps).trace = [] := by
  induction maps with
  | nil => rfl
  | cons m rest ih =>
    obtain ⟨o, n, fs⟩ := m
    simp [remapFiltersRun, ih]

theorem remapFiltersRun_dry_total (outcome : Mutation → Except ApiErr Unit)
    (maps : List (User × User × List String)) :
    (remapFiltersRun outcome true maps).total =
      (maps.map (fun m => m.2.2.length)).sum := by
  induction maps with
  | nil => rfl
  | cons m rest ih =>
    obtain ⟨o, n, fs⟩ := m
    simp [remapFiltersRun, ih]

theorem remapIssuesRun_dry_trace (respond : String → Nat → List String → SubmitResp)
    (fetch : Nat → String → Task) (fuel : Nat)
    (maps : List (User × User × List String × List String)) :
    (remapIssuesRun respond fetch fuel true maps).trace = [] := by
  induction maps with
  | nil => rfl
  | cons m rest ih =>
    obtain ⟨o, n, ak, rk⟩ := m
    simp [remapIssuesRun, ih]

theorem remapSpacesRun_dry_trace (addRes : SpacePermissionV1 → AddPermResult)
    (removeOutcome : SpacePermissionV1 → Except ApiErr Unit)
    (renameOutcome : Space → Except ApiErr Unit)
    (maps : List (User × User × List Space)) :
    (remapSpacesRun addRes removeOutcome renameOutcome true maps).trace = [] := by
  induction maps with
  | nil => rfl
  | cons m rest ih =>
    obtain ⟨o, n, sp⟩ := m
    simp [remapSpacesRun, ih]

/-- C7: with dry-run enabled none of the three remap commands issues
any mutation request (no filter-owner change, no bulk issue update, no
space permission add/remove, no space rename), whatever the discovery
outcome — including a discovery error — and whatever the per-request
outcomes; only the matched totals for the summary table are computed. -/
theorem dry_run_no_mutations :
    (∀ (outcome : Mutation → Except ApiErr Unit)
        (disc : Except ApiErr (List (User × User × List String))),
      (withDiscovery (remapFiltersRun outcome true) disc).trace = []) ∧
    (∀ (respond : String → Nat → List String → SubmitResp)
        (fetch : Nat → String → Task) (fuel : Nat)
        (disc : Except ApiErr (List (User × User × List String × List String))),
      (withDiscovery (remapIssuesRun respond fetch fuel true) disc).trace = []) ∧
    (∀ (addRes : SpacePermissionV1 → AddPermResult)
        (removeOutcome : SpacePermissionV1 → Except ApiErr Unit)
        (renameOutcome : Space → Except ApiErr Unit)
        (disc : Except ApiErr (List (User × User × List Space))),
      (withDiscovery (remapSpacesRun addRes removeOutcome renameOutcome true)
        disc).trace = []) ∧
    (∀ (outcome : Mutation → Except ApiErr Unit)
        (maps : List (User × User × List String)),
      (remapFiltersRun outcome true maps).total =
        (maps.map (fun m => m.2.2.length)).sum) := by
  refine ⟨?_, ?_, ?_, remapFiltersRun_dry_total⟩
  · intro outcome disc
    cases disc with
    | error e => rfl
    | ok maps => exact remapFiltersRun_dry_trace outcome maps
  · intro respond fetch fuel disc
    cases disc with
    | error e => rfl
    | ok maps => exact remapIssuesRun_dry_trace respond fetch fuel maps
  · intro addRes removeOutcome renameOutcome disc
    cases disc with
    | error e => rfl
    | ok maps => exact remapSpacesRun_dry_trace addRes removeOutcome renameOutcome maps

end JTool
